import Mathlib

/-!
# Shallow embedding of the go-template-v3 authentication core

This file embeds the authentication subsystem of the repository
(`internal/service/auth_service.go`, `pkg/jwt/jwt.go`,
`pkg/tokens/verification.go`, `internal/repository/user_repository.go`,
`db/queries/users.sql`) as executable Lean definitions and proves
properties of the embedded operations.

Modelling conventions:
* Machine time (`time.Time`) is an `Int` number of seconds; `a.After(b)`
  is `a > b`; `now.Add(d)` is `now + d`.
* The user store (`users` table accessed through `UserRepository` and the
  sqlc queries) is a list of user records; each SQL statement is one
  atomic function on that list, matching the single-statement queries in
  `db/queries/users.sql`.
* A Go `(value, error)` pair becomes `Except` where exactly one side is
  set, and a pair `(response, Option err)` where the Go code returns a
  non-nil response together with a non-nil error.
* Go string slicing `s[:8]` panics when `s` has fewer than 8 bytes; the
  operations that perform it return a `GoResult` with an explicit
  `panics` constructor.
* The HMAC signature of a JWT is modelled by recording the signing
  secret inside the token; signature verification succeeds exactly when
  the verifying secret equals the signing secret (standard symbolic
  model of a MAC, collisions ignored).
-/

namespace GoTemplate

/-- Result of running a Go function that may panic. -/
inductive GoResult (α : Type) where
  | panics : GoResult α
  | ok : α → GoResult α
  deriving Repr, DecidableEq

/-- Errors surfaced by the repository layer (`database/sql`):
`sql.ErrNoRows` versus any other driver/transport error. -/
inductive RepoError where
  | noRows : RepoError
  | other : String → RepoError
  deriving Repr, DecidableEq

/-- The sentinel domain errors declared at the top of
`internal/service/auth_service.go`, plus the ad-hoc
`errors.New` values the service builds inline (`generic`). -/
inductive AuthErr where
  | invalidCredentials
  | userAlreadyExists
  | invalidVerificationToken
  | emailAlreadyVerified
  | invalidPasswordResetToken
  | userNotFound
  | generic : String → AuthErr
  deriving Repr, DecidableEq

/-- A row of the `users` table as surfaced by `entity.User`
(nullable columns become `Option`). -/
structure User where
  id : Nat
  name : String
  email : String
  passwordHash : String
  role : String
  emailVerified : Bool
  emailVerificationToken : Option String
  emailVerificationExpiresAt : Option Int
  passwordResetToken : Option String
  passwordResetExpiresAt : Option Int
  deriving Repr, DecidableEq

/-- The user store: the `users` table plus the serial id sequence. -/
structure Db where
  users : List User
  nextId : Nat
  deriving Repr, DecidableEq

/-! ## Password hasher (`hashPassword` / `verifyPassword`)

The service delegates to `golang.org/x/crypto/bcrypt`
(`bcrypt.GenerateFromPassword(..., 12)` and
`bcrypt.CompareHashAndPassword`), a library outside this repository. -/

/-- Modelled from the spec: §4.2 Password Hasher contract for the
external `golang.org/x/crypto/bcrypt` library — `hash(plaintext)`
yields an opaque hash string with the cost factor embedded, and
`verify` matches exactly the original plaintext.  The salt is
abstracted away (deterministic model); only the match relation of the
contract is represented, not one-wayness. -/
def bcryptHash (password : String) : String :=
  "$2a$12$" ++ password

/-- Modelled from the spec: §4.2 — `verify(plaintext, hash)` succeeds
iff the hash was produced from the same plaintext. -/
def bcryptVerify (password hash : String) : Bool :=
  hash == bcryptHash password

/-! ## JWT token manager (`pkg/jwt/jwt.go`) -/

/-- Signing algorithm recorded in a token header: the HMAC family
accepted by the key function in `validateToken`, or anything else. -/
inductive Alg where
  | hmacHS256
  | nonHMAC
  deriving Repr, DecidableEq

/-- The claims carried by a token (`jwt.Claims` in `pkg/jwt/jwt.go`:
`UserID`, `Email` plus the registered claims set by `generateToken`). -/
structure Claims where
  userID : Nat
  email : String
  expiresAt : Int
  issuedAt : Int
  notBefore : Int
  issuer : String
  subject : String
  deriving Repr, DecidableEq

/-- A signed JWT: its claims plus header algorithm and — standing in for
the HMAC signature — the secret it was signed with. -/
structure SignedToken where
  alg : Alg
  claims : Claims
  sigSecret : String
  deriving Repr, DecidableEq

/-- `jwt.TokenPair`. -/
structure TokenPair where
  accessToken : SignedToken
  refreshToken : SignedToken
  deriving Repr, DecidableEq

/-- `jwt.JWTManager`: two distinct secrets and the two expiration
windows (durations in seconds). -/
structure JWTManager where
  accessSecret : String
  refreshSecret : String
  accessExpiration : Int
  refreshExpiration : Int
  deriving Repr, DecidableEq

/-- Error kinds returned by token validation (`ErrInvalidToken`,
`ErrExpiredToken`, `ErrInvalidClaims`). -/
inductive JwtError where
  | invalidToken
  | expiredToken
  | invalidClaims
  deriving Repr, DecidableEq

/-- `JWTManager.generateToken`: builds the claims with
`ExpiresAt = now+expiration`, `IssuedAt = NotBefore = now`,
issuer `go-template`, subject = email, and signs with HS256. -/
def generateToken (userID : Nat) (email secret : String)
    (expiration now : Int) : SignedToken :=
  { alg := .hmacHS256
    claims :=
      { userID := userID
        email := email
        expiresAt := now + expiration
        issuedAt := now
        notBefore := now
        issuer := "go-template"
        subject := email }
    sigSecret := secret }

/-- `JWTManager.GenerateTokenPair`: access and refresh tokens for the
same subject, each with its own secret and expiration window. -/
def GenerateTokenPair (jm : JWTManager) (userID : Nat) (email : String)
    (now : Int) : TokenPair :=
  { accessToken :=
      generateToken userID email jm.accessSecret jm.accessExpiration now
    refreshToken :=
      generateToken userID email jm.refreshSecret jm.refreshExpiration now }

/-- `JWTManager.validateToken` via `jwt.ParseWithClaims`
(golang-jwt/v5): the key function rejects non-HMAC algorithms, then the
signature is verified, then the registered claims are validated with
zero leeway (`exp`: valid only while `now < exp`; `nbf`: valid only
once `nbf ≤ now`; `iat` is not checked by the v5 default parser).
`errors.Is(err, jwt.ErrTokenExpired)` maps to `ErrExpiredToken` and
every other failure to `ErrInvalidToken`. -/
def validateToken (tok : SignedToken) (secret : String) (now : Int) :
    Except JwtError Claims :=
  if tok.alg ≠ .hmacHS256 then .error .invalidToken
  else if tok.sigSecret ≠ secret then .error .invalidToken
  else if ¬ now < tok.claims.expiresAt then .error .expiredToken
  else if now < tok.claims.notBefore then .error .invalidToken
  else .ok tok.claims

/-- `JWTManager.ValidateAccessToken`. -/
def ValidateAccessToken (jm : JWTManager) (tok : SignedToken)
    (now : Int) : Except JwtError Claims :=
  validateToken tok jm.accessSecret now

/-- `JWTManager.ValidateRefreshToken`. -/
def ValidateRefreshToken (jm : JWTManager) (tok : SignedToken)
    (now : Int) : Except JwtError Claims :=
  validateToken tok jm.refreshSecret now

/-- `JWTManager.RefreshAccessToken`: validate against the refresh
secret, then mint a fresh access token for the same subject. -/
def RefreshAccessToken (jm : JWTManager) (tok : SignedToken)
    (now : Int) : Except JwtError SignedToken :=
  match ValidateRefreshToken jm tok now with
  | .error e => .error e
  | .ok claims =>
      .ok (generateToken claims.userID claims.email jm.accessSecret
        jm.accessExpiration now)

/-! ## Repository layer (`internal/repository/user_repository.go` over
`db/queries/users.sql`)

Each `:one` lookup is `SELECT ... WHERE col = $1 LIMIT 1` and each
write is a single `UPDATE` statement; a lookup returning no row
surfaces `sql.ErrNoRows`. -/

/-- `GetUserByEmail` / `GetUserByEmailWithPassword`
(`SELECT * FROM users WHERE email = $1 LIMIT 1`). -/
def getUserByEmail (db : Db) (email : String) : Except RepoError User :=
  match db.users.find? (fun u => u.email == email) with
  | some u => .ok u
  | none => .error .noRows

/-- `GetUserByVerificationToken`
(`SELECT * FROM users WHERE email_verification_token = $1 LIMIT 1`,
the parameter bound as a non-null string). -/
def getUserByVerificationToken (db : Db) (tok : String) :
    Except RepoError User :=
  match db.users.find? (fun u => u.emailVerificationToken == some tok) with
  | some u => .ok u
  | none => .error .noRows

/-- `GetUserByPasswordResetToken`
(`SELECT * FROM users WHERE password_reset_token = $1 LIMIT 1`). -/
def getUserByPasswordResetToken (db : Db) (tok : String) :
    Except RepoError User :=
  match db.users.find? (fun u => u.passwordResetToken == some tok) with
  | some u => .ok u
  | none => .error .noRows

/-- The row inserted by `CreateUserWithPassword` for the given
arguments: next serial id, unverified, no reset token. -/
def freshUser (db : Db) (name email passwordHash role
    verificationToken : String) (verificationExpiresAt : Option Int) : User :=
  { id := db.nextId
    name := name
    email := email
    passwordHash := passwordHash
    role := role
    emailVerified := false
    emailVerificationToken := some verificationToken
    emailVerificationExpiresAt := verificationExpiresAt
    passwordResetToken := none
    passwordResetExpiresAt := none }

/-- `CreateUserWithPassword` insert (used by
`CreateWithPasswordAndRole`): inserts the row; the store enforces the
unique index on `email`, so inserting a duplicate email fails with a
constraint-violation error and leaves the table unchanged. -/
def createUserWithPassword (db : Db) (name email passwordHash role
    verificationToken : String) (verificationExpiresAt : Option Int) :
    Except RepoError (User × Db) :=
  if db.users.any (fun u => u.email == email) then
    .error (.other "unique constraint violation on users.email")
  else
    let u := freshUser db name email passwordHash role verificationToken
      verificationExpiresAt
    .ok (u, { users := db.users ++ [u], nextId := db.nextId + 1 })

/-- `VerifyEmailByToken` (`UPDATE users SET email_verified = true,
email_verification_token = NULL, email_verification_expires_at = NULL
WHERE email_verification_token = $1`): one statement updating every
matching row. -/
def verifyEmailByToken (db : Db) (tok : String) : Db :=
  { db with
    users := db.users.map (fun u =>
      if u.emailVerificationToken == some tok then
        { u with
          emailVerified := true
          emailVerificationToken := none
          emailVerificationExpiresAt := none }
      else u) }

/-- `ResetPassword` query (`UPDATE users SET password_hash = $2,
password_reset_token = NULL, password_reset_expires_at = NULL
WHERE password_reset_token = $1`): the password hash is set and the
reset token and expiry are cleared in the same single statement. -/
def resetPasswordByToken (db : Db) (tok newHash : String) : Db :=
  { db with
    users := db.users.map (fun u =>
      if u.passwordResetToken == some tok then
        { u with
          passwordHash := newHash
          passwordResetToken := none
          passwordResetExpiresAt := none }
      else u) }

/-- `UpdatePasswordResetToken` (`UPDATE users SET password_reset_token
= $2, password_reset_expires_at = $3 WHERE id = $1`). -/
def updatePasswordResetToken (db : Db) (userID : Nat) (tok : String)
    (expiresAt : Option Int) : Db :=
  { db with
    users := db.users.map (fun u =>
      if u.id == userID then
        { u with
          passwordResetToken := some tok
          passwordResetExpiresAt := expiresAt }
      else u) }

/-! ## DTOs (`internal/dto`) -/

/-- `dto.RegisterRequest`. -/
structure RegisterRequest where
  name : String
  email : String
  password : String
  deriving Repr, DecidableEq

/-- `dto.LoginRequest`. -/
structure LoginRequest where
  email : String
  password : String
  deriving Repr, DecidableEq

/-- The user view embedded in `dto.AuthResponse`. -/
structure UserResponse where
  id : Nat
  name : String
  email : String
  role : String
  emailVerified : Bool
  deriving Repr, DecidableEq

/-- `dto.AuthResponse` (timestamps of the view omitted; `expiresAt`
is `time.Now().Add(config.JWT.AccessExpiresIn)` with the same access
window the token manager was built with). -/
structure AuthResponse where
  user : UserResponse
  accessToken : SignedToken
  refreshToken : SignedToken
  expiresAt : Int
  deriving Repr, DecidableEq

/-- `dto.EmailVerificationResponse`. -/
structure EmailVerificationResponse where
  message : String
  success : Bool
  deriving Repr, DecidableEq

/-- `dto.PasswordResetResponse`. -/
structure PasswordResetResponse where
  message : String
  success : Bool
  deriving Repr, DecidableEq

/-! ## Auth service (`internal/service/auth_service.go`)

Non-deterministic inputs of the Go code are passed explicitly: `now`
for `time.Now()`, the freshly generated random token for
`tokens.GenerateVerificationToken` / `GeneratePasswordResetToken`
(success path; entropy failure aborts the flow before any state
change), and — for `Register`, whose duplicate check inspects the raw
lookup error — an optional injected store fault standing for a
`GetByEmail` failure other than `sql.ErrNoRows`. -/

/-- The expiry test pattern `x != nil && time.Now().After(*x)` used by
`VerifyEmail` and `ResetPassword`: a nil (NULL) expiry never counts as
expired. -/
def expiryPassed (expiry : Option Int) (now : Int) : Bool :=
  match expiry with
  | some e => now > e
  | none => false

/-- `authService.Register`.  The duplicate-email precondition is the
literal source condition `err == nil && existingUser != nil`; a lookup
that fails (with `sql.ErrNoRows` or any other error, injected here as
`lookupFault`) falls through to user creation.  The verification
email is sent with a soft-fail policy and touches no user-store
state, so it does not appear in the state transition. -/
def Register (db : Db) (lookupFault : Option String)
    (jm : JWTManager) (verificationToken : String) (now : Int)
    (req : RegisterRequest) : Except AuthErr AuthResponse × Db :=
  let lookup : Except RepoError User :=
    match lookupFault with
    | some msg => .error (.other msg)
    | none => getUserByEmail db req.email
  match lookup with
  | .ok _ => (.error .userAlreadyExists, db)
  | .error _ =>
    let hashedPassword := bcryptHash req.password
    let expiresAt := now + 24 * 3600
    match createUserWithPassword db req.name req.email hashedPassword
        "user" verificationToken (some expiresAt) with
    | .error _ => (.error (.generic "failed to create user"), db)
    | .ok (user, db1) =>
      let tokenPair := GenerateTokenPair jm user.id user.email now
      (.ok
        { user :=
            { id := user.id
              name := user.name
              email := user.email
              role := user.role
              emailVerified := user.emailVerified }
          accessToken := tokenPair.accessToken
          refreshToken := tokenPair.refreshToken
          expiresAt := now + jm.accessExpiration }, db1)

/-- `authService.Login`: lookup by email with password hash
(`sql.ErrNoRows` → `ErrInvalidCredentials`, other lookup errors →
generic "authentication failed"), then `verifyPassword`
(mismatch → `ErrInvalidCredentials`), then a fresh token pair. -/
def Login (db : Db) (jm : JWTManager) (now : Int)
    (req : LoginRequest) : Except AuthErr AuthResponse :=
  match getUserByEmail db req.email with
  | .error .noRows => .error .invalidCredentials
  | .error (.other _) => .error (.generic "authentication failed")
  | .ok user =>
    if ¬ bcryptVerify req.password user.passwordHash then
      .error .invalidCredentials
    else
      let tokenPair := GenerateTokenPair jm user.id user.email now
      .ok
        { user :=
            { id := user.id
              name := user.name
              email := user.email
              role := user.role
              emailVerified := user.emailVerified }
          accessToken := tokenPair.accessToken
          refreshToken := tokenPair.refreshToken
          expiresAt := now + jm.accessExpiration }

/-- `authService.VerifyEmail`.  The first statement logs
`req.Token[:8]+"..."`; Go byte-slicing panics when the token has fewer
than 8 bytes, hence the `GoResult`.  Then: lookup by verification
token (`sql.ErrNoRows` → `ErrInvalidVerificationToken`); already
verified → `ErrEmailAlreadyVerified`; expiry set and strictly in the
past (`time.Now().After`) → `ErrInvalidVerificationToken`; otherwise
the single `VerifyEmailByToken` update.  The Go function returns a
response struct together with the error, mirrored by the
`Option AuthErr` component. -/
def VerifyEmail (db : Db) (now : Int) (token : String) :
    GoResult ((EmailVerificationResponse × Option AuthErr) × Db) :=
  if token.utf8ByteSize < 8 then .panics
  else
    match getUserByVerificationToken db token with
    | .error .noRows =>
        .ok (({ message := "Invalid or expired verification token"
                success := false }, some .invalidVerificationToken), db)
    | .error (.other _) =>
        .ok (({ message := "Verification failed"
                success := false }, some (.generic "verification failed")), db)
    | .ok user =>
      if user.emailVerified then
        .ok (({ message := "Email is already verified"
                success := false }, some .emailAlreadyVerified), db)
      else if expiryPassed user.emailVerificationExpiresAt now then
        .ok (({ message := "Verification token has expired"
                success := false }, some .invalidVerificationToken), db)
      else
        .ok (({ message := "Email verified successfully"
                success := true }, none), verifyEmailByToken db token)

/-- `authService.ForgotPassword`: lookup by email; `sql.ErrNoRows`
returns the generic success envelope without touching any state;
otherwise a fresh reset token with a 24-hour expiry is stored and the
reset email sent (a send failure surfaces as an error, after the
token was already persisted). -/
def ForgotPassword (db : Db) (resetToken : String) (now : Int)
    (emailSendOk : Bool) (email : String) :
    (PasswordResetResponse × Option AuthErr) × Db :=
  match getUserByEmail db email with
  | .error .noRows =>
      (({ message :=
            "If your email is registered, you will receive a password reset link shortly"
          success := true }, none), db)
  | .error (.other _) =>
      (({ message := "Failed to process password reset request"
          success := false },
        some (.generic "failed to process password reset request")), db)
  | .ok user =>
    let expiresAt := now + 24 * 3600
    let db1 := updatePasswordResetToken db user.id resetToken (some expiresAt)
    if ¬ emailSendOk then
      (({ message := "Failed to send password reset email"
          success := false },
        some (.generic "failed to send password reset email")), db1)
    else
      (({ message :=
            "If your email is registered, you will receive a password reset link shortly"
          success := true }, none), db1)

/-- `authService.ResetPassword`.  Logs `req.Token[:8]+"..."` (panics
below 8 bytes), looks the token up (`sql.ErrNoRows` →
`ErrInvalidPasswordResetToken`), rejects a strictly-past stored
expiry with `ErrInvalidPasswordResetToken`, then hashes the new
password and performs the single `ResetPassword` update that writes
the hash and clears the token and expiry together. -/
def ResetPassword (db : Db) (now : Int) (token newPassword : String) :
    GoResult ((PasswordResetResponse × Option AuthErr) × Db) :=
  if token.utf8ByteSize < 8 then .panics
  else
    match getUserByPasswordResetToken db token with
    | .error .noRows =>
        .ok (({ message := "Invalid or expired password reset token"
                success := false }, some .invalidPasswordResetToken), db)
    | .error (.other _) =>
        .ok (({ message := "Password reset failed"
                success := false }, some (.generic "password reset failed")), db)
    | .ok user =>
      if expiryPassed user.passwordResetExpiresAt now then
        .ok (({ message := "Password reset token has expired"
                success := false }, some .invalidPasswordResetToken), db)
      else
        let hashedPassword := bcryptHash newPassword
        .ok (({ message := "Password reset successfully"
                success := true }, none),
          resetPasswordByToken db token hashedPassword)

/-! ## Sample data used by the concrete witnesses -/

/-- A well-formed 64-character verification token. -/
def tok64 : String :=
  "aaaaaaaaaaaaaaaaaaaaaaaaaaaaaaaaaaaaaaaaaaaaaaaaaaaaaaaaaaaaaaaa"

/-- A well-formed 64-character password-reset token. -/
def tokR64 : String :=
  "bbbbbbbbbbbbbbbbbbbbbbbbbbbbbbbbbbbbbbbbbbbbbbbbbbbbbbbbbbbbbbbb"

/-- An unverified user holding a verification token and a reset token,
both expiring at time 100. -/
def sampleUser : User :=
  { id := 1
    name := "Alice"
    email := "alice@example.com"
    passwordHash := bcryptHash "password123"
    role := "user"
    emailVerified := false
    emailVerificationToken := some tok64
    emailVerificationExpiresAt := some 100
    passwordResetToken := some tokR64
    passwordResetExpiresAt := some 100 }

/-- A store containing just `sampleUser`. -/
def sampleDb : Db := { users := [sampleUser], nextId := 2 }

/-- An already-verified user still holding a verification token row. -/
def verifiedUser : User :=
  { sampleUser with id := 3, email := "carol@example.com", emailVerified := true }

/-- A store containing just `verifiedUser`. -/
def verifiedDb : Db := { users := [verifiedUser], nextId := 4 }

/-- A token manager with distinct secrets and the default windows
(30 minutes access, 7 days refresh, in seconds). -/
def sampleJM : JWTManager :=
  { accessSecret := "access-secret"
    refreshSecret := "refresh-secret"
    accessExpiration := 1800
    refreshExpiration := 604800 }

/-! ## Claim theorems -/

/-- The hash model is injective: equal hashes come from equal
plaintexts. -/
theorem bcryptHash_inj {a b : String} (h : bcryptHash a = bcryptHash b) :
    a = b := by
  have h2 := congrArg String.data h
  simp only [bcryptHash, String.data_append] at h2
  exact String.ext (List.append_cancel_left h2)

/-- C8: for every valid password `p` (the registration rule accepts
length 8 to 128), verifying `p` against `hash p` succeeds, and
verifying any different plaintext `q` against `hash p` fails. -/
theorem hash_verify_roundtrip (p q : String)
    (_hmin : 8 ≤ p.length) (_hmax : p.length ≤ 128) :
    bcryptVerify p (bcryptHash p) = true ∧
    (q ≠ p → bcryptVerify q (bcryptHash p) = false) := by
  refine ⟨by simp [bcryptVerify], fun hne => ?_⟩
  rw [bcryptVerify, beq_eq_false_iff_ne]
  exact fun h => hne (bcryptHash_inj h.symm)

/-- C8 witness: the round trip at the concrete password
`password123` against the different plaintext `different1`. -/
theorem hash_verify_roundtrip_witness :
    bcryptVerify "password123" (bcryptHash "password123") = true ∧
    ("different1" ≠ "password123" →
      bcryptVerify "different1" (bcryptHash "password123") = false) :=
  hash_verify_roundtrip "password123" "different1" (by decide) (by decide)

/-- C6: a login against an email with no record and a login against an
existing email whose stored hash does not match the supplied password
both return the identical `ErrInvalidCredentials` value. -/
theorem login_anti_enumeration
    (db : Db) (jm : JWTManager) (now : Int) (req1 req2 : LoginRequest)
    (h1 : db.users.find? (fun u => u.email == req1.email) = none)
    (u : User)
    (h2 : db.users.find? (fun v => v.email == req2.email) = some u)
    (h3 : bcryptVerify req2.password u.passwordHash = false) :
    Login db jm now req1 = .error .invalidCredentials ∧
    Login db jm now req2 = .error .invalidCredentials ∧
    Login db jm now req1 = Login db jm now req2 := by
  have e1 : Login db jm now req1 = .error .invalidCredentials := by
    simp [Login, getUserByEmail, h1]
  have e2 : Login db jm now req2 = .error .invalidCredentials := by
    simp [Login, getUserByEmail, h2, h3]
  exact ⟨e1, e2, e1.trans e2.symm⟩

/-- C6 witness: unknown email `bob@example.com` and wrong password for
`alice@example.com` yield the same `ErrInvalidCredentials`. -/
theorem login_anti_enumeration_witness :
    Login sampleDb sampleJM 0 { email := "bob@example.com", password := "x" } =
      .error .invalidCredentials ∧
    Login sampleDb sampleJM 0 { email := "alice@example.com", password := "wrong" } =
      .error .invalidCredentials ∧
    Login sampleDb sampleJM 0 { email := "bob@example.com", password := "x" } =
      Login sampleDb sampleJM 0 { email := "alice@example.com", password := "wrong" } :=
  login_anti_enumeration sampleDb sampleJM 0
    { email := "bob@example.com", password := "x" }
    { email := "alice@example.com", password := "wrong" }
    (by decide) sampleUser (by decide) (by decide)

/-- C7: `ForgotPassword` for an email with no user record returns the
generic success envelope (`success = true`, no error) and leaves the
store exactly as it was. -/
theorem forgotPassword_unknown_email_masks
    (db : Db) (resetToken : String) (now : Int) (sendOk : Bool) (email : String)
    (h : db.users.find? (fun u => u.email == email) = none) :
    ForgotPassword db resetToken now sendOk email =
      (({ message :=
            "If your email is registered, you will receive a password reset link shortly"
          success := true }, none), db) := by
  simp [ForgotPassword, getUserByEmail, h]

/-- C7 witness: the masking envelope at the unregistered email
`nobody@example.com`. -/
theorem forgotPassword_unknown_email_masks_witness :
    ForgotPassword sampleDb tokR64 0 true "nobody@example.com" =
      (({ message :=
            "If your email is registered, you will receive a password reset link shortly"
          success := true }, none), sampleDb) :=
  forgotPassword_unknown_email_masks sampleDb tokR64 0 true
    "nobody@example.com" (by decide)

/-- C9: contrary to the claim, `VerifyEmail` and `ResetPassword` panic
on a non-empty token shorter than 8 bytes: the entry log statement
slices `req.Token[:8]`, which is out of bounds for the 3-byte token
`abc`. -/
theorem verifyEmail_resetPassword_short_token_panic :
    VerifyEmail sampleDb 0 "abc" = .panics ∧
    ResetPassword sampleDb 0 "abc" "newpassword1" = .panics := by
  constructor <;> rfl

/-- C4: an access token issued by the manager and validated strictly
after its expiry instant yields exactly the `Expired` error kind, and
one validated before its `not_before` instant is rejected
(no grace window in either direction). -/
theorem validateAccess_rejects_outside_window
    (jm : JWTManager) (userID : Nat) (email : String) (t0 now : Int) :
    (t0 + jm.accessExpiration < now →
      ValidateAccessToken jm
        (generateToken userID email jm.accessSecret jm.accessExpiration t0) now =
        .error .expiredToken) ∧
    (now < t0 →
      (ValidateAccessToken jm
        (generateToken userID email jm.accessSecret jm.accessExpiration t0)
          now).isOk = false) := by
  constructor
  · intro h
    have hnl : ¬ now < t0 + jm.accessExpiration := not_lt.mpr h.le
    simp [ValidateAccessToken, validateToken, generateToken, hnl]
  · intro h
    by_cases h2 : now < t0 + jm.accessExpiration
    · simp [ValidateAccessToken, validateToken, generateToken, h2, h,
        Except.isOk, Except.toBool]
    · simp [ValidateAccessToken, validateToken, generateToken, h2,
        Except.isOk, Except.toBool]

/-- C4 witness: with the 1800-second access window issued at time 0,
validation at time 1801 is `Expired` and validation at time -1 is
rejected. -/
theorem validateAccess_rejects_outside_window_witness :
    ValidateAccessToken sampleJM
      (generateToken 1 "alice@example.com" sampleJM.accessSecret
        sampleJM.accessExpiration 0) 1801 = .error .expiredToken ∧
    (ValidateAccessToken sampleJM
      (generateToken 1 "alice@example.com" sampleJM.accessSecret
        sampleJM.accessExpiration 0) (-1)).isOk = false :=
  ⟨(validateAccess_rejects_outside_window sampleJM 1 "alice@example.com" 0
      1801).1 (by decide),
   (validateAccess_rejects_outside_window sampleJM 1 "alice@example.com" 0
      (-1)).2 (by decide)⟩

/-- C5: with distinct access and refresh secrets, the access token of a
freshly issued pair validates immediately with the original user id
and email as claims, while the same token fails refresh-side
validation. -/
theorem tokenPair_access_roundtrip
    (jm : JWTManager) (userID : Nat) (email : String) (now : Int)
    (hsec : jm.accessSecret ≠ jm.refreshSecret)
    (hexp : 0 < jm.accessExpiration) :
    (∃ claims,
      ValidateAccessToken jm (GenerateTokenPair jm userID email now).accessToken
        now = .ok claims ∧
      claims.userID = userID ∧ claims.email = email) ∧
    (ValidateRefreshToken jm (GenerateTokenPair jm userID email now).accessToken
      now).isOk = false := by
  constructor
  · have h1 : now < now + jm.accessExpiration := by omega
    have hv : ValidateAccessToken jm
        (GenerateTokenPair jm userID email now).accessToken now =
        .ok (generateToken userID email jm.accessSecret
          jm.accessExpiration now).claims := by
      simp [ValidateAccessToken, validateToken, GenerateTokenPair,
        generateToken, h1]
    exact ⟨_, hv, rfl, rfl⟩
  · simp [ValidateRefreshToken, validateToken, GenerateTokenPair,
      generateToken, hsec, Except.isOk, Except.toBool]

/-- C5 witness: the round trip for user 1 / `alice@example.com` at time
0 under `sampleJM`, whose two secrets differ. -/
theorem tokenPair_access_roundtrip_witness :
    (∃ claims,
      ValidateAccessToken sampleJM
        (GenerateTokenPair sampleJM 1 "alice@example.com" 0).accessToken 0 =
        .ok claims ∧
      claims.userID = 1 ∧ claims.email = "alice@example.com") ∧
    (ValidateRefreshToken sampleJM
      (GenerateTokenPair sampleJM 1 "alice@example.com" 0).accessToken
        0).isOk = false :=
  tokenPair_access_roundtrip sampleJM 1 "alice@example.com" 0
    (by decide) (by decide)

/-- After the single `ResetPassword` update statement, no row still
carries the consumed token, so a lookup by that token finds nothing. -/
theorem resetPasswordByToken_clears (db : Db) (tok newHash : String) :
    (resetPasswordByToken db tok newHash).users.find?
      (fun v => v.passwordResetToken == some tok) = none := by
  rw [List.find?_eq_none]
  intro v hv
  simp only [resetPasswordByToken, List.mem_map] at hv
  obtain ⟨w, hw, rfl⟩ := hv
  by_cases hc : w.passwordResetToken == some tok
  · simp [hc]
  · simp [hc]

/-- C2: a stored, unexpired reset token succeeds exactly once.  The
successful call returns the success envelope and produces a store in
which the token's holder carries the new password hash with the token
and expiry cleared — every row is either fully updated or untouched,
so no half-applied state exists — and a second call with the same
token fails with `ErrInvalidPasswordResetToken`, changing nothing. -/
theorem resetPassword_exactly_once
    (db : Db) (now now2 : Int) (tok newPassword p2 : String)
    (hlen : 8 ≤ tok.utf8ByteSize)
    (u : User)
    (hfind : db.users.find? (fun v => v.passwordResetToken == some tok) = some u)
    (hexp : expiryPassed u.passwordResetExpiresAt now = false) :
    ∃ db1,
      ResetPassword db now tok newPassword =
        .ok (({ message := "Password reset successfully", success := true },
          none), db1) ∧
      (∃ v ∈ db1.users, v.id = u.id ∧ v.email = u.email ∧
        v.passwordHash = bcryptHash newPassword ∧
        v.passwordResetToken = none ∧ v.passwordResetExpiresAt = none) ∧
      (∀ v ∈ db1.users,
        (v.passwordHash = bcryptHash newPassword ∧
          v.passwordResetToken = none ∧ v.passwordResetExpiresAt = none) ∨
        v ∈ db.users) ∧
      ResetPassword db1 now2 tok p2 =
        .ok (({ message := "Invalid or expired password reset token"
                success := false }, some .invalidPasswordResetToken), db1) := by
  have hnl : ¬ tok.utf8ByteSize < 8 := not_lt.mpr hlen
  refine ⟨resetPasswordByToken db tok (bcryptHash newPassword), ?_, ?_, ?_, ?_⟩
  · simp [ResetPassword, getUserByPasswordResetToken, hnl, hfind, hexp]
  · have hm := List.mem_of_find?_eq_some hfind
    have hp := List.find?_some hfind
    refine ⟨{ u with
              passwordHash := bcryptHash newPassword
              passwordResetToken := none
              passwordResetExpiresAt := none },
      ?_, rfl, rfl, rfl, rfl, rfl⟩
    simp only [resetPasswordByToken, List.mem_map]
    exact ⟨u, hm, by simp [hp]⟩
  · intro v hv
    simp only [resetPasswordByToken, List.mem_map] at hv
    obtain ⟨w, hw, rfl⟩ := hv
    by_cases hc : w.passwordResetToken == some tok
    · exact .inl (by simp [hc])
    · refine .inr ?_
      simpa [hc] using hw
  · have h2 := resetPasswordByToken_clears db tok (bcryptHash newPassword)
    simp [ResetPassword, getUserByPasswordResetToken, hnl, h2]

/-- C2 witness: `sampleUser`'s reset token, unexpired at time 50, is
consumed by the first call and rejected by the second. -/
theorem resetPassword_exactly_once_witness :
    ∃ db1,
      ResetPassword sampleDb 50 tokR64 "newpassword1" =
        .ok (({ message := "Password reset successfully", success := true },
          none), db1) ∧
      (∃ v ∈ db1.users, v.id = sampleUser.id ∧ v.email = sampleUser.email ∧
        v.passwordHash = bcryptHash "newpassword1" ∧
        v.passwordResetToken = none ∧ v.passwordResetExpiresAt = none) ∧
      (∀ v ∈ db1.users,
        (v.passwordHash = bcryptHash "newpassword1" ∧
          v.passwordResetToken = none ∧ v.passwordResetExpiresAt = none) ∨
        v ∈ sampleDb.users) ∧
      ResetPassword db1 60 tokR64 "other1234" =
        .ok (({ message := "Invalid or expired password reset token"
                success := false }, some .invalidPasswordResetToken), db1) :=
  resetPassword_exactly_once sampleDb 50 60 tokR64 "newpassword1" "other1234"
    (by decide) sampleUser (by decide) (by decide)

/-- C3: for a user record found by verification token — already
verified yields `EmailAlreadyVerified` with no state change; a
strictly-past expiry yields `ErrInvalidVerificationToken` with no
state change (token left in place, verified flag still false); and
otherwise the one `VerifyEmailByToken` update sets verified and clears
token and expiry together, touching no other row. -/
theorem verifyEmail_found_cases
    (db : Db) (now : Int) (tok : String)
    (hlen : 8 ≤ tok.utf8ByteSize)
    (u : User)
    (hfind : db.users.find?
      (fun v => v.emailVerificationToken == some tok) = some u) :
    (u.emailVerified = true →
      VerifyEmail db now tok =
        .ok (({ message := "Email is already verified", success := false },
          some .emailAlreadyVerified), db)) ∧
    (∀ e, u.emailVerified = false → u.emailVerificationExpiresAt = some e →
      e < now →
      VerifyEmail db now tok =
        .ok (({ message := "Verification token has expired", success := false },
          some .invalidVerificationToken), db)) ∧
    (u.emailVerified = false →
      expiryPassed u.emailVerificationExpiresAt now = false →
      ∃ db1,
        VerifyEmail db now tok =
          .ok (({ message := "Email verified successfully", success := true },
            none), db1) ∧
        (∃ v ∈ db1.users, v.id = u.id ∧ v.email = u.email ∧
          v.emailVerified = true ∧ v.emailVerificationToken = none ∧
          v.emailVerificationExpiresAt = none) ∧
        (∀ v ∈ db1.users,
          (v.emailVerified = true ∧ v.emailVerificationToken = none ∧
            v.emailVerificationExpiresAt = none) ∨ v ∈ db.users)) := by
  have hnl : ¬ tok.utf8ByteSize < 8 := not_lt.mpr hlen
  refine ⟨?_, ?_, ?_⟩
  · intro hver
    simp [VerifyEmail, getUserByVerificationToken, hnl, hfind, hver]
  · intro e hver hsome hlt
    have hep : expiryPassed u.emailVerificationExpiresAt now = true := by
      rw [hsome]
      simp only [expiryPassed, decide_eq_true_eq]
      omega
    simp [VerifyEmail, getUserByVerificationToken, hnl, hfind, hver, hep]
  · intro hver hep
    refine ⟨verifyEmailByToken db tok, ?_, ?_, ?_⟩
    · simp [VerifyEmail, getUserByVerificationToken, hnl, hfind, hver, hep]
    · have hm := List.mem_of_find?_eq_some hfind
      have hp := List.find?_some hfind
      refine ⟨{ u with
                emailVerified := true
                emailVerificationToken := none
                emailVerificationExpiresAt := none },
        ?_, rfl, rfl, rfl, rfl, rfl⟩
      simp only [verifyEmailByToken, List.mem_map]
      exact ⟨u, hm, by simp [hp]⟩
    · intro v hv
      simp only [verifyEmailByToken, List.mem_map] at hv
      obtain ⟨w, hw, rfl⟩ := hv
      by_cases hc : w.emailVerificationToken == some tok
      · exact .inl (by simp [hc])
      · refine .inr ?_
        simpa [hc] using hw

/-- C3 witness: the already-verified case on `verifiedDb`, the expired
case on `sampleDb` at time 150 (expiry 100), and the success case on
`sampleDb` at time 50. -/
theorem verifyEmail_found_cases_witness :
    VerifyEmail verifiedDb 0 tok64 =
      .ok (({ message := "Email is already verified", success := false },
        some .emailAlreadyVerified), verifiedDb) ∧
    VerifyEmail sampleDb 150 tok64 =
      .ok (({ message := "Verification token has expired", success := false },
        some .invalidVerificationToken), sampleDb) ∧
    (∃ db1,
      VerifyEmail sampleDb 50 tok64 =
        .ok (({ message := "Email verified successfully", success := true },
          none), db1) ∧
      (∃ v ∈ db1.users, v.id = sampleUser.id ∧ v.email = sampleUser.email ∧
        v.emailVerified = true ∧ v.emailVerificationToken = none ∧
        v.emailVerificationExpiresAt = none) ∧
      (∀ v ∈ db1.users,
        (v.emailVerified = true ∧ v.emailVerificationToken = none ∧
          v.emailVerificationExpiresAt = none) ∨ v ∈ sampleDb.users)) :=
  ⟨(verifyEmail_found_cases verifiedDb 0 tok64 (by decide) verifiedUser
      (by decide)).1 rfl,
   (verifyEmail_found_cases sampleDb 150 tok64 (by decide) sampleUser
      (by decide)).2.1 100 rfl rfl (by decide),
   (verifyEmail_found_cases sampleDb 50 tok64 (by decide) sampleUser
      (by decide)).2.2 rfl (by decide)⟩

/-- C10: a record whose verification (resp. reset) token is set while
the matching expiry column is NULL is treated as not expired: both
operations pass the expiry check and complete successfully. -/
theorem null_expiry_not_expired
    (db : Db) (now : Int) (tokV tokR newPassword : String)
    (hlenV : 8 ≤ tokV.utf8ByteSize) (hlenR : 8 ≤ tokR.utf8ByteSize)
    (u : User)
    (hfindV : db.users.find?
      (fun v => v.emailVerificationToken == some tokV) = some u)
    (hver : u.emailVerified = false)
    (hnullV : u.emailVerificationExpiresAt = none)
    (w : User)
    (hfindR : db.users.find?
      (fun v => v.passwordResetToken == some tokR) = some w)
    (hnullR : w.passwordResetExpiresAt = none) :
    (∃ db1, VerifyEmail db now tokV =
      .ok (({ message := "Email verified successfully", success := true },
        none), db1)) ∧
    (∃ db2, ResetPassword db now tokR newPassword =
      .ok (({ message := "Password reset successfully", success := true },
        none), db2)) := by
  have hnlV : ¬ tokV.utf8ByteSize < 8 := not_lt.mpr hlenV
  have hnlR : ¬ tokR.utf8ByteSize < 8 := not_lt.mpr hlenR
  have hepV : expiryPassed u.emailVerificationExpiresAt now = false := by
    simp [hnullV, expiryPassed]
  have hepR : expiryPassed w.passwordResetExpiresAt now = false := by
    simp [hnullR, expiryPassed]
  constructor
  · exact ⟨verifyEmailByToken db tokV, by
      simp [VerifyEmail, getUserByVerificationToken, hnlV, hfindV, hver, hepV]⟩
  · exact ⟨resetPasswordByToken db tokR (bcryptHash newPassword), by
      simp [ResetPassword, getUserByPasswordResetToken, hnlR, hfindR, hepR]⟩

/-- A user whose tokens are set but whose expiry columns are NULL. -/
def nullExpiryUser : User :=
  { sampleUser with
    id := 5
    email := "dave@example.com"
    emailVerificationExpiresAt := none
    passwordResetExpiresAt := none }

/-- A store containing just `nullExpiryUser`. -/
def nullExpiryDb : Db := { users := [nullExpiryUser], nextId := 6 }

/-- C10 witness: far in the future (time 999999999), both operations
still succeed on the NULL-expiry record. -/
theorem null_expiry_not_expired_witness :
    (∃ db1, VerifyEmail nullExpiryDb 999999999 tok64 =
      .ok (({ message := "Email verified successfully", success := true },
        none), db1)) ∧
    (∃ db2, ResetPassword nullExpiryDb 999999999 tokR64 "newpassword1" =
      .ok (({ message := "Password reset successfully", success := true },
        none), db2)) :=
  null_expiry_not_expired nullExpiryDb 999999999 tok64 tokR64 "newpassword1"
    (by decide) (by decide) nullExpiryUser (by decide) rfl rfl
    nullExpiryUser (by decide) rfl

/-! ## C1: the Register duplicate-email precondition -/

/-- The empty user store. -/
def emptyDb : Db := { users := [], nextId := 0 }

/-- A registration request for `alice@example.com`. -/
def regReq : RegisterRequest :=
  { name := "Alice", email := "alice@example.com", password := "password123" }

/-- C1 counterexample: when the existing-user lookup fails with a
connection error — an error other than not-found — `Register` does not
treat it as a failed precondition check: it proceeds and creates the
user (here in an empty store, ending with one record and a success
result), contradicting the claim. -/
theorem register_lookup_fault_still_creates :
    RepoError.other "connection refused" ≠ RepoError.noRows ∧
    (Register emptyDb (some "connection refused") sampleJM tok64 0
      regReq).2.users.length = 1 ∧
    ∃ r, (Register emptyDb (some "connection refused") sampleJM tok64 0
      regReq).1 = .ok r := by
  exact ⟨by decide, rfl, ⟨_, rfl⟩⟩

/-- `CreateUserWithPassword` on a store without the email inserts the
fresh row. -/
theorem createUserWithPassword_fresh (db : Db) (name email ph role vtok : String)
    (vexp : Option Int)
    (h : db.users.any (fun u => u.email == email) = false) :
    createUserWithPassword db name email ph role vtok vexp =
      .ok (freshUser db name email ph role vtok vexp,
        { users := db.users ++ [freshUser db name email ph role vtok vexp],
          nextId := db.nextId + 1 }) := by
  simp [createUserWithPassword, h]

/-- C1 (amended): a failure of the existing-user lookup — whether
not-found or any other error — is treated as absence of the user, and
`Register` proceeds to create the account; for every email already
present in the store whose lookup succeeds, a second `Register`
returns `UserAlreadyExists` and creates no second record. -/
theorem register_duplicate_check
    (db : Db) (jm : JWTManager) (vtok : String) (now : Int)
    (req : RegisterRequest) :
    (∀ msg, (∀ u ∈ db.users, u.email ≠ req.email) →
      (Register db (some msg) jm vtok now req).1.isOk = true ∧
      (Register db (some msg) jm vtok now req).2.users.length =
        db.users.length + 1 ∧
      ∃ v ∈ (Register db (some msg) jm vtok now req).2.users,
        v.email = req.email ∧ v.role = "user" ∧ v.emailVerified = false) ∧
    ((∃ u ∈ db.users, u.email = req.email) →
      Register db none jm vtok now req = (.error .userAlreadyExists, db)) := by
  constructor
  · intro msg habs
    have hany : db.users.any (fun u => u.email == req.email) = false := by
      rw [List.any_eq_false]
      intro x hx
      simp [habs x hx]
    have hcr := createUserWithPassword_fresh db req.name req.email
      (bcryptHash req.password) "user" vtok (some (now + 24 * 3600)) hany
    norm_num at hcr
    refine ⟨?_, ?_, ?_⟩
    · simp [Register, hcr, Except.isOk, Except.toBool]
    · simp [Register, hcr]
    · refine ⟨freshUser db req.name req.email (bcryptHash req.password)
        "user" vtok (some (now + 86400)), ?_, rfl, rfl, rfl⟩
      simp [Register, hcr]
  · rintro ⟨u, hu, he⟩
    cases hfind : db.users.find? (fun v => v.email == req.email) with
    | none =>
        rw [List.find?_eq_none] at hfind
        exact absurd (by simp [he]) (hfind u hu)
    | some w => simp [Register, getUserByEmail, hfind]

/-- C1 witness for the amended claim: the fault path creates a record
in the empty store, and the fault-free duplicate path on `sampleDb`
returns `UserAlreadyExists` without touching the store. -/
theorem register_duplicate_check_witness :
    ((Register emptyDb (some "connection refused") sampleJM tok64 0
        regReq).1.isOk = true ∧
      (Register emptyDb (some "connection refused") sampleJM tok64 0
        regReq).2.users.length = emptyDb.users.length + 1 ∧
      ∃ v ∈ (Register emptyDb (some "connection refused") sampleJM tok64 0
        regReq).2.users,
        v.email = regReq.email ∧ v.role = "user" ∧
        v.emailVerified = false) ∧
    Register sampleDb none sampleJM tok64 0 regReq =
      (.error .userAlreadyExists, sampleDb) :=
  ⟨(register_duplicate_check emptyDb sampleJM tok64 0 regReq).1
      "connection refused" (by simp [emptyDb]),
   (register_duplicate_check sampleDb sampleJM tok64 0 regReq).2
      ⟨sampleUser, by simp [sampleDb], rfl⟩⟩

end GoTemplate
